import Mathlib

/-!
Shallow embedding of the verification-outcome classification and trace
reconstruction code of src/share/smack/top.py (functions transform_out,
verification_result, error_step, error_trace, smackdOutput).

Text is modelled as List Char.  Each Python regular expression used by the
source is hand-translated into a scanner over List Char; next to every
scanner a comment quotes the pattern and justifies why the translation is
exact.  All the patterns involved are deterministic after the following
observation: whenever a greedy class-star or class-plus is followed by a
character that is outside the class, backtracking can never recover a
failed continuation, so "consume the maximal run, then require the literal
continuation" is the exact match semantics.  Leading greedy dot-star
groups are modelled by preferring the rightmost viable split, which is
exactly what greediness produces.

Python splitlines is modelled for newline-delimited text (the outputs the
code consumes are newline-delimited).  The source iterates over
splitlines(True) (keeping the final newline of each line); since none of
the patterns can match or capture the trailing newline (dot and all the
character classes exclude it, and a final dollar anchor matches just
before a trailing newline), we model lines without their trailing newline
and anchor end-of-pattern at end-of-line, which is equivalent.
-/

/-- Python character class \s (ASCII, as in Python 2 str patterns). -/
def isPySpace (c : Char) : Bool :=
  c = ' ' || c = '\t' || c = '\n' || c = '\x0b' || c = '\x0c' || c = '\r'

/-- Python character class \w (ASCII): letters, digits, underscore. -/
def isWordChar (c : Char) : Bool :=
  c.isAlphanum || c = '_'

/-- The filename character class of top.py: word characters plus the
seven punctuation marks hash, dollar, tilde, percent, dot, slash, dash. -/
def isFilenameChar (c : Char) : Bool :=
  isWordChar c || c = '#' || c = '$' || c = '~' || c = '%' || c = '.' || c = '/' || c = '-'

/-- A nonzero decimal digit, the class [1-9]. -/
def isPosDigit (c : Char) : Bool :=
  '1' ≤ c && c ≤ '9'

/-- If lit is a prefix of s, return the remainder of s, else none. -/
def stripLit : List Char → List Char → Option (List Char)
  | [], s => some s
  | _ :: _, [] => none
  | p :: ps, c :: cs => if p = c then stripLit ps cs else none

/-- Does p hold on some suffix of s?  This is how re.search is modelled:
a search succeeds exactly when the pattern matches starting at some
position, i.e. on some suffix. -/
def anySuffix (p : List Char → Bool) : List Char → Bool
  | [] => p []
  | c :: cs => p (c :: cs) || anySuffix p cs

/-- re.search for a pattern that is a plain literal: substring test. -/
def containsSub (pat s : List Char) : Bool :=
  anySuffix (fun suf => (stripLit pat suf).isSome) s

/-- First some-result of f over a list of lines (models a for loop that
returns on the first hit and falls through to none). -/
def firstSome {α : Type} (f : List Char → Option α) : List (List Char) → Option α
  | [] => none
  | l :: ls =>
    match f l with
    | some r => some r
    | none => firstSome f ls

def splitLinesAux : List Char → List Char → List (List Char)
  | [], acc => if acc.isEmpty then [] else [acc.reverse]
  | c :: cs, acc =>
    if c = '\n' then acc.reverse :: splitLinesAux cs [] else splitLinesAux cs (c :: acc)

/-- Python splitlines for newline-delimited text: empty text gives no
lines, a trailing newline does not produce a trailing empty line. -/
def splitLines (s : List Char) : List (List Char) :=
  splitLinesAux s []

/-- Python int() on a nonempty string of decimal digits. -/
def digitsToNat (ds : List Char) : Nat :=
  ds.foldl (fun a c => 10 * a + (c.toNat - '0'.toNat)) 0

/-! ## The outcome classifier: verification_result (top.py lines 641-662) -/

/-- Match of the first timeout alternative [1-9]\d* time out at the start
of s.  After the leading nonzero digit, the greedy \d* is followed by a
space, which is not a digit, so the exact semantics is: drop the maximal
digit run, then require the literal. -/
def timeoutCountAt (s : List Char) : Bool :=
  match s with
  | c :: cs => isPosDigit c && (stripLit " time out".toList (cs.dropWhile Char.isDigit)).isSome
  | [] => false

/-- re.search of the timeout rule
[1-9]\d* time out|Z3 ran out of resources|timed out|ERRORS_TIMEOUT . -/
def searchTimeoutRule (s : List Char) : Bool :=
  anySuffix timeoutCountAt s ||
  containsSub ("Z3 ran out of resources".toList) s ||
  containsSub ("timed out".toList) s ||
  containsSub ("ERRORS_TIMEOUT".toList) s

/-- Match of [1-9]\d* verified, 0 errors? at the start of s.  The
optional trailing s cannot influence whether a match exists, so it is not
tested.  The greedy \d* is followed by a space: same argument as above. -/
def verifiedCountAt (s : List Char) : Bool :=
  match s with
  | c :: cs => isPosDigit c && (stripLit " verified, 0 error".toList (cs.dropWhile Char.isDigit)).isSome
  | [] => false

/-- A "K verified, 0 errors" occurrence with K at least one, the first
alternative of the verified rule. -/
def hasVerifiedZeroErrors (s : List Char) : Bool :=
  anySuffix verifiedCountAt s

/-- re.search of the verified rule
[1-9]\d* verified, 0 errors?|no bugs|NO_ERRORS_NO_TIMEOUT . -/
def searchVerifiedRule (s : List Char) : Bool :=
  hasVerifiedZeroErrors s ||
  containsSub ("no bugs".toList) s ||
  containsSub ("NO_ERRORS_NO_TIMEOUT".toList) s

/-- Match of \d* verified, [1-9]\d* errors? at the start of s.  The
leading \d* may be empty, so a match exists at some position exactly when
the part after the digits matches at some position; hence this scanner
tests the part starting at the literal space before the word verified,
and the surrounding search makes the two formulations coincide.  The
optional trailing s again cannot influence matchability. -/
def failCountAt (s : List Char) : Bool :=
  match stripLit " verified, ".toList s with
  | some rest =>
    match rest with
    | c :: cs => isPosDigit c && (stripLit " error".toList (cs.dropWhile Char.isDigit)).isSome
    | [] => false
  | none => false

/-- re.search of the failure rule
\d* verified, [1-9]\d* errors?|can fail|ERRORS_NO_TIMEOUT . -/
def searchFailRule (s : List Char) : Bool :=
  anySuffix failCountAt s ||
  containsSub ("can fail".toList) s ||
  containsSub ("ERRORS_NO_TIMEOUT".toList) s

def derefMarker : List Char := "ASSERTION FAILS assert \x7b:valid_deref\x7d".toList

def freeMarker : List Char := "ASSERTION FAILS assert \x7b:valid_free\x7d".toList

def memtrackMarker : List Char := "ASSERTION FAILS assert \x7b:valid_memtrack\x7d".toList

def overflowMarker : List Char := "ASSERTION FAILS assert \x7b:overflow\x7d".toList

/-- Rightmost index k of a closing parenthesis in seg with k at least 1;
this is where the greedy .+\) of the CALL pattern ends: the dot-plus
consumes to the end of the line and backtracks to the last closing
parenthesis that leaves at least one consumed character. -/
def lastParenIdx : List Char → Nat → Option Nat
  | [], _ => none
  | c :: cs, i =>
    match lastParenIdx cs (i + 1) with
    | some j => some j
    | none => if c = ')' && 1 ≤ i then some i else none

/-- One match of \(CALL .+\) starting exactly at s: the literal prefix,
then (since dot excludes newline) the match extends to the rightmost
closing parenthesis on the same line that leaves the dot-plus nonempty.
Returns the matched text and the remainder after the match. -/
def callMatchAt (s : List Char) : Option (List Char × List Char) :=
  match stripLit "(CALL ".toList s with
  | some r =>
    let seg := r.takeWhile (fun c => c ≠ '\n')
    match lastParenIdx seg 0 with
    | some k => some ("(CALL ".toList ++ seg.take (k + 1), r.drop (k + 1))
    | none => none
  | none => none

/-- Worker for findall with fuel; every step consumes at least one
character of the text, so fuel equal to the length of the text is always
sufficient and the zero-fuel clause is never reached from findallCall. -/
def findallGo : Nat → List Char → List (List Char)
  | 0, _ => []
  | _ + 1, [] => []
  | fuel + 1, c :: cs =>
    match callMatchAt (c :: cs) with
    | some (m, rest) => m :: findallGo fuel rest
    | none => findallGo fuel cs

/-- re.findall of \(CALL .+\): non-overlapping matches, scanning left to
right and continuing after the end of each match. -/
def findallCall (s : List Char) : List (List Char) :=
  findallGo s.length s

/-- Embedding of verification_result (top.py lines 641-662): the ordered
chain of re.search tests, then the failure sub-classification, then the
scan of the CALL occurrences where the last one decides. -/
def verification_result (verifier_output : List Char) : String :=
  if searchTimeoutRule verifier_output then "timeout"
  else if searchVerifiedRule verifier_output then "verified"
  else if searchFailRule verifier_output then
    if containsSub derefMarker verifier_output then "invalid-deref"
    else if containsSub freeMarker verifier_output then "invalid-free"
    else if containsSub memtrackMarker verifier_output then "invalid-memtrack"
    else if containsSub overflowMarker verifier_output then "overflow"
    else
      match (findallCall verifier_output).getLast? with
      | some lastCall => if containsSub ("free_".toList) lastCall then "invalid-free" else "error"
      | none => "error"
  else "unknown"

/-! ## The output transform hook: transform_out (top.py lines 634-639) -/

/-- Result of one run of the external filter process: captured standard
output, captured standard error, and the exit status. -/
structure ProcResult where
  stdout : List Char
  stderr : List Char
  exitCode : Int
deriving DecidableEq

/-- Embedding of transform_out (top.py lines 634-639).  The external
process spawned by subprocess is modelled by the oracle run, mapping the
configured command and the standard input to the process result.  The
source keeps only the first component of communicate (standard output),
discards the captured standard error, and never inspects the exit status;
its return type is the plain text, so no error can be reported.  The
Python truthiness test on args.transform_out (absent or empty means no
command) is modelled by Option. -/
def transform_out (run : List Char → List Char → ProcResult)
    (transformOutArg : Option (List Char)) (old : List Char) : List Char :=
  match transformOutArg with
  | none => old
  | some cmd => (run cmd old).stdout

/-! ## The step resolver and prose trace assembler:
error_step and error_trace (top.py lines 739-769) -/

/-- Groups of the located-diagnostic pattern of error_step,
indent, filename-star, line digits before the comma, message; the column
digits after the comma are matched but not captured by the source. -/
structure StepGroups where
  indent : List Char
  file : List Char
  lineDigits : List Char
  msg : List Char
deriving DecidableEq

/-- re.match of the error_step pattern: whitespace-star group, then the
greedy filename-class star, then an open parenthesis, digits, a comma,
digits, the literal close-colon-space, then dot-star to the end of the
line.  Deterministic: the whitespace class, the filename class and the
digit class each exclude the literal character that follows them. -/
def stepMatch (step : List Char) : Option StepGroups :=
  let indent := step.takeWhile isPySpace
  let r1 := step.dropWhile isPySpace
  let file := r1.takeWhile isFilenameChar
  let r2 := r1.dropWhile isFilenameChar
  match r2 with
  | '(' :: r3 =>
    let d1 := r3.takeWhile Char.isDigit
    let r4 := r3.dropWhile Char.isDigit
    if d1.isEmpty then none
    else
      match r4 with
      | ',' :: r5 =>
        let d2 := r5.takeWhile Char.isDigit
        let r6 := r5.dropWhile Char.isDigit
        if d2.isEmpty then none
        else
          match stripLit "): ".toList r6 with
          | some msg => some ⟨indent, file, d1, msg⟩
          | none => none
      | _ => none
  | _ => none

/-- Does suf end s?  Models re.match of dot-star, a literal dot, bpl,
then the end anchor, applied to a filename (which contains no newline):
that matches exactly when the filename ends with the four characters. -/
def endsWithLit (suf s : List Char) : Bool :=
  (stripLit suf.reverse s.reverse).isSome

/-- The basic-block label pattern at the start of s: a literal dollar,
bb, then at least one digit. -/
def bbAt (s : List Char) : Bool :=
  match stripLit "$bb".toList s with
  | some (c :: _) => c.isDigit
  | _ => false

/-- re.match of dot-star, dollar, bb, digit-plus, dot-star: the message
contains a dollar-bb-digit occurrence somewhere. -/
def hasBBLabel (s : List Char) : Bool :=
  anySuffix bbAt s

/-- The sourceloc pattern starting exactly at s: the literal
brace-colon-sourceloc-quote, a filename-class star (greedy, then the
closing quote which is outside the class), the literal quote-comma-space,
digit-plus, comma-space, digit-plus, closing brace; anything may follow.
Returns the three captured groups; the two digit groups stay strings
because the source splices them back textually. -/
def annotAt (s : List Char) : Option (List Char × List Char × List Char) :=
  match stripLit "\x7b:sourceloc \"".toList s with
  | some r1 =>
    let f := r1.takeWhile isFilenameChar
    let r2 := r1.dropWhile isFilenameChar
    match stripLit "\", ".toList r2 with
    | some r3 =>
      let d1 := r3.takeWhile Char.isDigit
      let r4 := r3.dropWhile Char.isDigit
      if d1.isEmpty then none
      else
        match stripLit ", ".toList r4 with
        | some r5 =>
          let d2 := r5.takeWhile Char.isDigit
          let r6 := r5.dropWhile Char.isDigit
          if d2.isEmpty then none
          else
            match r6 with
            | '\x7d' :: _ => some (f, d1, d2)
            | _ => none
        | none => none
    | none => none
  | none => none

/-- re.match of the sourceloc pattern with its leading greedy dot-star:
the greedy dot-star selects the rightmost position at which the rest of
the pattern matches, so suffixes are tried longest-continuation last,
preferring the recursive (more-dropped) result. -/
def srcMatchLine : List Char → Option (List Char × List Char × List Char)
  | [] => annotAt []
  | c :: cs =>
    match srcMatchLine cs with
    | some r => some r
    | none => annotAt (c :: cs)

/-- The annotation lookup loop of error_step: the Python slice
lines[line_no : line_no + 10] over the zero-indexed line list, i.e. drop
line_no then take 10, and the first line whose sourceloc pattern matches
wins. -/
def resolveAnnot (artifactLines : List (List Char)) (line_no : Nat) :
    Option (List Char × List Char × List Char) :=
  firstSome srcMatchLine ((artifactLines.drop line_no).take 10)

/-- Embedding of error_step (top.py lines 739-756).  The file system read
(open the matched filename and split its contents into lines) is modelled
by the oracle fs from filenames to line lists.  When the filename does
not end in .bpl the source returns group zero of the match, which is the
whole line because the pattern is anchored at the start and its final
dot-star reaches the end of the line. -/
def error_step (fs : List Char → List (List Char)) (step : List Char) : Option (List Char) :=
  match stepMatch step with
  | some g =>
    if endsWithLit (".bpl".toList) g.file then
      let message := if hasBBLabel g.msg then [] else g.msg
      match resolveAnnot (fs g.file) (digitsToNat g.lineDigits) with
      | some (f, l, c) =>
        some (g.indent ++ f ++ ['('] ++ l ++ [','] ++ c ++ "): ".toList ++ message)
      | none => none
    else some step
  | none => none

/-- Continuation of the error-header pattern after the greedy leading
dot-star: the literal colon-space, an upper or lower e, rror, a space,
at least one character from the class of capitals and digits (greedy,
followed by a colon which is outside the class), colon-space, and the
rest of the line is the second group. -/
def headerRest (s : List Char) : Option (List Char) :=
  match stripLit ": ".toList s with
  | some r1 =>
    match r1 with
    | c :: r2 =>
      if c = 'E' || c = 'e' then
        match stripLit "rror ".toList r2 with
        | some r3 =>
          let code := r3.takeWhile (fun ch => ('A' ≤ ch && ch ≤ 'Z') || ch.isDigit)
          let r4 := r3.dropWhile (fun ch => ('A' ≤ ch && ch ≤ 'Z') || ch.isDigit)
          if code.isEmpty then none
          else
            match stripLit ": ".toList r4 with
            | some g2 => some g2
            | none => none
        | none => none
      else none
    | [] => none
  | none => none

/-- re.match of the error-header pattern of error_trace: the leading
greedy dot-star group prefers the rightmost split at which the
continuation matches; returns the two captured groups. -/
def headerSplit : List Char → Option (List Char × List Char)
  | [] => Option.map (fun g2 => (([] : List Char), g2)) (headerRest [])
  | c :: cs =>
    match headerSplit cs with
    | some (g1, g2) => some (c :: g1, g2)
    | none => Option.map (fun g2 => (([] : List Char), g2)) (headerRest (c :: cs))

/-- Embedding of error_trace (top.py lines 758-769): fold the resolved
steps, reformat error headers, otherwise indent a step by four spaces
unless it already begins with a space, and append a newline. -/
def error_trace (fs : List Char → List (List Char)) (verifier_output : List Char) : List Char :=
  (splitLines verifier_output).foldl (fun trace line =>
    match error_step fs line with
    | some step =>
      match headerSplit step with
      | some (loc, desc) => trace ++ loc ++ ": ".toList ++ desc ++ "\nExecution trace:\n".toList
      | none => trace ++ (if step.head? = some ' ' then [] else "    ".toList) ++ step ++ ['\n']
    | none => trace) []

/-! ## The structured report builder: smackdOutput (top.py lines 771-826) -/

/-- The failsAt record of the structured report. -/
structure Fails where
  file : List Char
  line : Nat
  column : Nat
  description : List Char
deriving DecidableEq

/-- One entry of the traces list of the structured report. -/
structure TraceEntry where
  threadid : Nat
  file : List Char
  line : Nat
  column : Nat
  description : List Char
  assumption : List Char
deriving DecidableEq

/-- The JSON value smackdOutput serializes: either the pass record or the
fail record with failsAt, threadCount and traces. -/
inductive Report where
  | pass
  | fail (failsAt : Fails) (threadCount : Nat) (traces : List TraceEntry)
deriving DecidableEq

def Report.failsAt? : Report → Option Fails
  | .pass => none
  | .fail fa _ _ => some fa

/-- The shared prefix of the traceMatch and traceAssumeMatch patterns of
smackdOutput: filename-class plus (nonempty), open parenthesis, digits,
comma, digits, the literal close-colon-space-Trace-colon-space-Thread-eq,
digits, two spaces; rest is what remains of the line.  Deterministic for
the usual reason: each greedy class run is followed by a character
outside its class. -/
structure TracePre where
  file : List Char
  lineDigits : List Char
  colDigits : List Char
  threadDigits : List Char
  rest : List Char
deriving DecidableEq

def tracePre (line : List Char) : Option TracePre :=
  let file := line.takeWhile isFilenameChar
  let r1 := line.dropWhile isFilenameChar
  if file.isEmpty then none
  else
    match r1 with
    | '(' :: r2 =>
      let d1 := r2.takeWhile Char.isDigit
      let r3 := r2.dropWhile Char.isDigit
      if d1.isEmpty then none
      else
        match r3 with
        | ',' :: r4 =>
          let d2 := r4.takeWhile Char.isDigit
          let r5 := r4.dropWhile Char.isDigit
          if d2.isEmpty then none
          else
            match stripLit "): Trace: Thread=".toList r5 with
            | some r6 =>
              let d3 := r6.takeWhile Char.isDigit
              let r7 := r6.dropWhile Char.isDigit
              if d3.isEmpty then none
              else
                match stripLit "  ".toList r7 with
                | some rest => some ⟨file, d1, d2, d3, rest⟩
                | none => none
            | none => none
        | _ => none
    | _ => none

/-- The optional parenthesized fragment at the end of a trace line: the
pattern is an optional group of open parenthesis, greedy dot-star, close
parenthesis, then the end anchor.  It matches with the group absent
exactly when the rest is empty, and with the group present exactly when
the rest starts with an open parenthesis and ends with a close
parenthesis, the captured inner text being everything in between (the
greedy dot-star backtracks to the last close parenthesis, which must sit
at the end of the line for the anchor to hold). -/
def optFrag (rest : List Char) : Option (Option (List Char)) :=
  if rest.isEmpty then some none
  else
    match rest with
    | '(' :: tail => if tail.getLast? = some ')' then some (some tail.dropLast) else none
    | _ => none

/-- Captured groups of the traceMatch pattern of smackdOutput; the three
numeric groups are converted by int in the source. -/
structure TraceGroups where
  file : List Char
  line : Nat
  col : Nat
  thread : Nat
  frag : Option (List Char)
deriving DecidableEq

/-- re.match of the traceMatch pattern of smackdOutput (line 789). -/
def traceMatch (line : List Char) : Option TraceGroups :=
  match tracePre line with
  | some p =>
    match optFrag p.rest with
    | some fr => some ⟨p.file, digitsToNat p.lineDigits, digitsToNat p.colDigits,
        digitsToNat p.threadDigits, fr⟩
    | none => none
  | none => none

/-- The inner assumption shape of the traceAssumeMatch pattern:
whitespace-star, word-plus, whitespace-star, equals, whitespace-star,
word-plus, whitespace-star, covering the whole inner text.  The word and
whitespace classes are disjoint from each other and from the equals sign,
so the scan is deterministic. -/
def isSimpleAssign (s : List Char) : Bool :=
  let r1 := s.dropWhile isPySpace
  let w1 := r1.takeWhile isWordChar
  let r2 := r1.dropWhile isWordChar
  if w1.isEmpty then false
  else
    match r2.dropWhile isPySpace with
    | '=' :: r4 =>
      let r5 := r4.dropWhile isPySpace
      let w2 := r5.takeWhile isWordChar
      let r6 := r5.dropWhile isWordChar
      if w2.isEmpty then false else (r6.dropWhile isPySpace).isEmpty
    | _ => false

/-- re.match of the traceAssumeMatch pattern of smackdOutput (line 790):
same prefix as traceMatch, but the parenthesized fragment is mandatory
and its inner text must have the simple assignment shape; the inner
classes exclude the close parenthesis, so the fragment decomposition of
optFrag is exact for this pattern as well.  Returns group six, the inner
text with its surrounding whitespace. -/
def traceAssumeMatch (line : List Char) : Option (List Char) :=
  match tracePre line with
  | some p =>
    match optFrag p.rest with
    | some (some mid) => if isSimpleAssign mid then some mid else none
    | _ => none
  | none => none

/-- re.match of the errorMatch pattern of smackdOutput (line 791): the
filename-parenthesized-location prefix, then the literal
close-colon-space, then a group beginning with the literal error-space
and reaching the end of the line. -/
def errorMatch (line : List Char) : Option Fails :=
  let file := line.takeWhile isFilenameChar
  let r1 := line.dropWhile isFilenameChar
  if file.isEmpty then none
  else
    match r1 with
    | '(' :: r2 =>
      let d1 := r2.takeWhile Char.isDigit
      let r3 := r2.dropWhile Char.isDigit
      if d1.isEmpty then none
      else
        match r3 with
        | ',' :: r4 =>
          let d2 := r4.takeWhile Char.isDigit
          let r5 := r4.dropWhile Char.isDigit
          if d2.isEmpty then none
          else
            match stripLit "): ".toList r5 with
            | some r6 =>
              if (stripLit "error ".toList r6).isSome then
                some ⟨file, digitsToNat d1, digitsToNat d2, r6⟩
              else none
            | none => none
        | _ => none
    | _ => none

/-- One step of the bitvector-suffix substitution of line 802 at a
position just after an equals sign: whitespace-star and digit-plus (the
captured group), the literal bv, digit-plus.  Greedy and deterministic:
whitespace, digits, the letter b are pairwise disjoint, and the final
digit-plus takes the maximal run, which fixes where the match ends.
Returns the captured group and the rest after the match. -/
def bvStripAfterEq (cs : List Char) : Option (List Char × List Char) :=
  let ws := cs.takeWhile isPySpace
  let r1 := cs.dropWhile isPySpace
  let ds := r1.takeWhile Char.isDigit
  let r2 := r1.dropWhile Char.isDigit
  if ds.isEmpty then none
  else
    match stripLit "bv".toList r2 with
    | some r3 =>
      let ds2 := r3.takeWhile Char.isDigit
      let r4 := r3.dropWhile Char.isDigit
      if ds2.isEmpty then none else some (ws ++ ds, r4)
    | none => none

/-- Worker for the substitution with fuel; every recursive call consumes
at least one character, so fuel equal to the length of the text is always
sufficient and the zero-fuel clause is never reached from bvSub. -/
def bvSubGo : Nat → List Char → List Char
  | 0, s => s
  | _ + 1, [] => []
  | fuel + 1, c :: cs =>
    if c = '=' then
      match bvStripAfterEq cs with
      | some (g, rest) => '=' :: (g ++ bvSubGo fuel rest)
      | none => c :: bvSubGo fuel cs
    else c :: bvSubGo fuel cs

/-- re.sub of the bitvector pattern (line 802): scan left to right, at
each position try the match (which begins with a literal equals sign),
replace a match by the equals sign and the captured group, and continue
after the match. -/
def bvSub (s : List Char) : List Char :=
  bvSubGo s.length s

/-- The running state of the line loop of smackdOutput: the accumulated
trace entries and the five shared variables initialized before the loop
(traces, filename, lineno, colno, threadid, desc in the source order). -/
structure SmackdState where
  traces : List TraceEntry
  filename : List Char
  lineno : Nat
  colno : Nat
  threadid : Nat
  desc : List Char
deriving DecidableEq

def initState : SmackdState := ⟨[], [], 0, 0, 0, []⟩

/-- One iteration of the line loop of smackdOutput (lines 788-814): on a
trace match, update the five shared variables (desc becomes the string
str applied to group six, which is the text None when the group is
absent), compute the assumption from the assume match with the bitvector
substitution, and append the entry whose description normalizes the text
None to empty; otherwise, on an error match, update the location
variables and desc from its groups. -/
def smackdLine (st : SmackdState) (traceLine : List Char) : SmackdState :=
  match traceMatch traceLine with
  | some g =>
    let descv : List Char :=
      match g.frag with
      | none => "None".toList
      | some f => f
    let assm : List Char :=
      match traceAssumeMatch traceLine with
      | some a => bvSub a
      | none => []
    let entry : TraceEntry :=
      ⟨g.thread, g.file, g.line, g.col, (if descv = "None".toList then [] else descv), assm⟩
    ⟨st.traces ++ [entry], g.file, g.line, g.col, g.thread, descv⟩
  | none =>
    match errorMatch traceLine with
    | some e => ⟨st.traces, e.file, e.line, e.column, st.threadid, e.description⟩
    | none => st

/-- Embedding of smackdOutput (top.py lines 771-826): the pass record
when the no-bugs marker occurs, otherwise the fold of the line loop with
the final shared variables becoming failsAt and a fixed thread count of
one. -/
def smackdOutput (corralOutput : List Char) : Report :=
  if containsSub ("Program has no bugs".toList) corralOutput then Report.pass
  else
    let st := (splitLines corralOutput).foldl smackdLine initState
    Report.fail ⟨st.filename, st.lineno, st.colno, st.desc⟩ 1 st.traces

/-! ## Claim-side definitions

These definitions follow the wording of the specification claims and are
compared against the source embeddings above. -/

/-- Claim side of C6: the last occurrence of the CALL pattern is a call
into a deallocation routine, that is, it contains the text free_. -/
def lastCallIsFree (s : List Char) : Bool :=
  match (findallCall s).getLast? with
  | some c => containsSub ("free_".toList) c
  | none => false

/-- Claim side of C4 (amended): the forward window of exactly ten
artifact lines whose k-th element, when present, is the line with
one-based number n + k + 1, that is, lines n + 1 through n + 10. -/
def windowSpec (lines : List (List Char)) (n : Nat) : List (List Char) :=
  (List.range 10).filterMap (fun k => lines[n + k]?)

/-- Claim side of C3 (amended): the location-and-description data a line
contributes to failsAt, for a line matching the trace shape (where the
recorded description is the raw fragment text, or the text None when the
fragment is absent) or the error shape; none for any other line. -/
def lineLocData (line : List Char) : Option Fails :=
  match traceMatch line with
  | some g =>
    some ⟨g.file, g.line, g.col,
      (match g.frag with
       | none => "None".toList
       | some f => f)⟩
  | none =>
    match errorMatch line with
    | some e => some e
    | none => none

/-- Claim side of C3 (amended): the data of the last line matching either
shape, or the zero-initialized defaults when no line matches. -/
def lastLoc (lines : List (List Char)) : Fails :=
  ((lines.filterMap lineLocData).getLast?).getD ⟨[], 0, 0, []⟩

/-- The failsAt-relevant projection of the loop state. -/
def locOf (st : SmackdState) : Fails :=
  ⟨st.filename, st.lineno, st.colno, st.desc⟩

/-! ## Concrete inputs used by the claim theorems -/

def c1text : List Char := "timed out can fail".toList

def c2cexText : List Char := "0 verified, 0 errors".toList

def c2wText : List Char := "1 verified, 0 errors".toList

def c3text : List Char :=
  "a.c(1,2): error main\nb.c(3,4): Trace: Thread=7  (x = 5)".toList

def c4annot : List Char := "assume \x7b:sourceloc \"main.c\", 7, 3\x7d true;".toList

def c5artifact : List (List Char) :=
  List.replicate 44 ("assume true;".toList) ++
    ["assert \x7b:sourceloc \"main.c\", 10, 2\x7d (x < 10);".toList]

def c5fs : List Char → List (List Char) :=
  fun f => if f = "a.bpl".toList then c5artifact else []

def c5text : List Char := "a.bpl(42,3): error ASSERT0001: assertion violation".toList

def c6text : List Char := "can fail (CALL free_things)".toList

def c7wText : List Char :=
  ("can fail ASSERTION FAILS assert \x7b:valid_free\x7d " ++
   "ASSERTION FAILS assert \x7b:valid_deref\x7d").toList

def c8text : List Char := "a.c(1,2): Trace: Thread=0  (x = 5bv32)".toList

def runFailC9 : List Char → List Char → ProcResult :=
  fun _ _ => ⟨"filtered".toList, "boom".toList, 1⟩

def runOkC9 : List Char → List Char → ProcResult :=
  fun _ _ => ⟨"filtered".toList, [], 0⟩

def c10line : List Char := "a.c(1,2): Trace: Thread=3  ".toList

/-! ## Helper lemmas -/

theorem take_eq_range_filterMap {α : Type} (l : List α) :
    ∀ m : Nat, l.take m = (List.range m).filterMap (fun k => l[k]?) := by
  induction l with
  | nil =>
    intro m
    rw [List.take_nil]
    symm
    rw [List.filterMap_eq_nil_iff]
    intro a _
    exact List.getElem?_nil
  | cons a as ih =>
    intro m
    cases m with
    | zero => rfl
    | succ m' =>
      rw [List.range_succ_eq_map, List.filterMap_cons, List.take_succ_cons]
      simp only [List.getElem?_cons_zero, List.filterMap_map]
      have hc : ((fun k => (a :: as)[k]?) ∘ Nat.succ) = fun k => as[k]? := by
        funext k
        simp [List.getElem?_cons_succ]
      rw [hc, ← ih m']

theorem dropTake_eq_window (lines : List (List Char)) (n : Nat) :
    (lines.drop n).take 10 = windowSpec lines n := by
  rw [take_eq_range_filterMap (lines.drop n) 10]
  unfold windowSpec
  congr 1
  funext k
  rw [List.getElem?_drop]

theorem getLast?_getD_ne_nil {α : Type} (l : List α) (h : l ≠ []) (x y : α) :
    (l.getLast?).getD x = (l.getLast?).getD y := by
  obtain ⟨v, hv⟩ := Option.isSome_iff_exists.mp (List.getLast?_isSome.mpr h)
  rw [hv]
  rfl

theorem getLast?_cons_getD {α : Type} (a x : α) (l : List α) :
    ((a :: l).getLast?).getD x = (l.getLast?).getD a := by
  cases l with
  | nil => rfl
  | cons b bs =>
    rw [List.getLast?_cons_cons]
    exact getLast?_getD_ne_nil (b :: bs) (by simp) x a

theorem traceAssume_of_frag_none (line : List Char) (g : TraceGroups)
    (h1 : traceMatch line = some g) (h2 : g.frag = none) :
    traceAssumeMatch line = none := by
  unfold traceMatch at h1
  unfold traceAssumeMatch
  cases hp : tracePre line with
  | none => rfl
  | some p =>
    rw [hp] at h1
    dsimp only at h1 ⊢
    cases hf : optFrag p.rest with
    | none => rfl
    | some fr =>
      rw [hf] at h1
      dsimp only at h1
      cases fr with
      | none => rfl
      | some mid =>
        simp only [Option.some.injEq] at h1
        rw [← h1] at h2
        exact absurd h2 (by simp)

theorem smackd_fold_loc (lines : List (List Char)) :
    ∀ st : SmackdState,
      locOf (lines.foldl smackdLine st) =
        ((lines.filterMap lineLocData).getLast?).getD (locOf st) := by
  induction lines with
  | nil => intro st; rfl
  | cons l ls ih =>
    intro st
    rw [List.foldl_cons, ih (smackdLine st l), List.filterMap_cons]
    cases htr : traceMatch l with
    | some g =>
      have hd : lineLocData l =
          some ⟨g.file, g.line, g.col,
            (match g.frag with
             | none => "None".toList
             | some f => f)⟩ := by
        unfold lineLocData
        rw [htr]
      have hs : locOf (smackdLine st l) =
          ⟨g.file, g.line, g.col,
            (match g.frag with
             | none => "None".toList
             | some f => f)⟩ := by
        unfold smackdLine locOf
        rw [htr]
      rw [hd, hs, getLast?_cons_getD]
    | none =>
      cases her : errorMatch l with
      | some e =>
        have hd : lineLocData l = some e := by
          unfold lineLocData
          rw [htr, her]
        have hs : locOf (smackdLine st l) = e := by
          unfold smackdLine locOf
          rw [htr, her]
        rw [hd, hs, getLast?_cons_getD]
      | none =>
        have hd : lineLocData l = none := by
          unfold lineLocData
          rw [htr, her]
        have hs : smackdLine st l = st := by
          unfold smackdLine
          rw [htr, her]
        rw [hd, hs]

/-! ## Claim theorems -/

/-- C1: for every raw verifier output containing both a timeout marker
(one of the four alternatives of the timeout rule) and a failure marker
(one of the three alternatives of the failure rule), verification_result
returns timeout: the timeout rule strictly precedes the verified and
failure rules. -/
theorem c1_timeout_precedence (t : List Char)
    (h1 : searchTimeoutRule t = true) (_h2 : searchFailRule t = true) :
    verification_result t = "timeout" := by
  unfold verification_result
  rw [h1]
  rfl

/-- Witness for C1 on the concrete text containing the markers timed out
and can fail. -/
theorem c1_witness :
    searchTimeoutRule c1text = true ∧ searchFailRule c1text = true ∧
      verification_result c1text = "timeout" :=
  ⟨by decide, by decide, c1_timeout_precedence c1text (by decide) (by decide)⟩

/-- C2 counterexample: the text 0 verified, 0 errors contains a
K-verified-0-errors occurrence with K equal to zero and no timeout
marker, yet verification_result returns unknown, not verified: the
verified rule requires K to be at least one. -/
theorem c2_counterexample :
    containsSub ("0 verified, 0 errors".toList) c2cexText = true ∧
    searchTimeoutRule c2cexText = false ∧
    verification_result c2cexText = "unknown" :=
  ⟨by decide, by decide, by decide⟩

/-- C2 amended: for every raw verifier output containing a
K-verified-0-errors occurrence with K at least one and containing no
timeout marker, verification_result returns verified. -/
theorem c2_verified_amended (t : List Char)
    (h1 : hasVerifiedZeroErrors t = true) (h2 : searchTimeoutRule t = false) :
    verification_result t = "verified" := by
  unfold verification_result
  rw [h2]
  have hv : searchVerifiedRule t = true := by
    unfold searchVerifiedRule
    rw [h1]
    rfl
  rw [hv]
  rfl

/-- Witness for the amended C2 on the concrete text 1 verified, 0
errors. -/
theorem c2_witness :
    hasVerifiedZeroErrors c2wText = true ∧ searchTimeoutRule c2wText = false ∧
      verification_result c2wText = "verified" :=
  ⟨by decide, by decide, c2_verified_amended c2wText (by decide) (by decide)⟩

/-- C3 counterexample: in the text whose first line matches the error
shape at a.c line 1 column 2 and whose second line matches the trace
shape at b.c line 3 column 4, the resulting failsAt record carries the
later trace line, not the last error line: trace-shaped lines occurring
after the error line do overwrite the failure location. -/
theorem c3_counterexample :
    errorMatch ("a.c(1,2): error main".toList) =
        some ⟨"a.c".toList, 1, 2, "error main".toList⟩ ∧
    (smackdOutput c3text).failsAt? = some ⟨"b.c".toList, 3, 4, "x = 5".toList⟩ ∧
    (smackdOutput c3text).failsAt? ≠ some ⟨"a.c".toList, 1, 2, "error main".toList⟩ :=
  ⟨by decide, by decide, by decide⟩

/-- C3 amended: when the text lacks the no-bugs marker, failsAt equals
the file, line, column and description recorded from the last line
matching either the trace shape or the error shape (for a trace line the
recorded description is the raw fragment text, or the text None when the
fragment is absent), and when no line matches either shape failsAt
carries the zero-initialized defaults. -/
theorem c3_failsAt_last_match (t : List Char)
    (h : containsSub ("Program has no bugs".toList) t = false) :
    (smackdOutput t).failsAt? = some (lastLoc (splitLines t)) := by
  unfold smackdOutput
  rw [h]
  dsimp only [Report.failsAt?]
  have hf := smackd_fold_loc (splitLines t) initState
  unfold locOf at hf
  rw [hf]
  rfl

/-- Witness for the amended C3 on the concrete two-line text of the
counterexample. -/
theorem c3_witness :
    containsSub ("Program has no bugs".toList) c3text = false ∧
    (smackdOutput c3text).failsAt? = some (lastLoc (splitLines c3text)) :=
  ⟨by decide, c3_failsAt_last_match c3text (by decide)⟩

/-- C4 counterexample: an artifact whose first and only line carries a
well-formed sourceloc annotation, with reported generated line 1: the
claimed window starting at line 1 would find the annotation, but the
lookup returns nothing, both at the level of the annotation loop and of
error_step, because the scanned window is lines 2 through 11. -/
theorem c4_counterexample :
    srcMatchLine c4annot = some ("main.c".toList, "7".toList, "3".toList) ∧
    resolveAnnot [c4annot] 1 = none ∧
    error_step (fun _ => [c4annot]) ("a.bpl(1,2): boom".toList) = none :=
  ⟨by decide, by decide, by decide⟩

/-- C4 amended: for every artifact and reported generated line N at
least 1, the annotation lookup examines a forward window of exactly ten
artifact lines starting at line N plus one (one-based lines N+1 through
N+10) and returns the first sourceloc annotation found there, or nothing
when none of those ten lines carries one. -/
theorem c4_window_amended (lines : List (List Char)) (n : Nat) (_h : 1 ≤ n) :
    resolveAnnot lines n = firstSome srcMatchLine (windowSpec lines n) := by
  unfold resolveAnnot
  rw [dropTake_eq_window]

/-- Witness for the amended C4 on the one-line artifact of the
counterexample at reported line 1. -/
theorem c4_witness :
    (1 : Nat) ≤ 1 ∧
      resolveAnnot [c4annot] 1 = firstSome srcMatchLine (windowSpec [c4annot] 1) :=
  ⟨by decide, c4_window_amended [c4annot] 1 (by decide)⟩

/-- C5: for the diagnostic line at a.bpl line 42 column 3 with message
error ASSERT0001: assertion violation, where one-based line 45 of a.bpl
carries the sourceloc annotation main.c, 10, 2 inside the ten-line
window and no annotation precedes it there, the assembled prose trace is
exactly the resolved header main.c(10,2): assertion violation followed
by the Execution trace: header line. -/
theorem c5_scenario :
    error_trace c5fs c5text =
      "main.c(10,2): assertion violation\nExecution trace:\n".toList := by
  decide

/-- C6: when the failure rule matches, neither the timeout nor the
verified rule matches, and none of the four specific assertion-category
markers occurs, verification_result returns invalid-free exactly when
the last CALL occurrence contains free_, and the generic error
otherwise. -/
theorem c6_last_call_free (t : List Char)
    (h1 : searchTimeoutRule t = false) (h2 : searchVerifiedRule t = false)
    (h3 : searchFailRule t = true)
    (h4 : containsSub derefMarker t = false) (h5 : containsSub freeMarker t = false)
    (h6 : containsSub memtrackMarker t = false) (h7 : containsSub overflowMarker t = false) :
    verification_result t = (if lastCallIsFree t then "invalid-free" else "error") := by
  unfold verification_result lastCallIsFree
  rw [h1, h2, h3, h4, h5, h6, h7]
  cases (findallCall t).getLast? with
  | none => rfl
  | some lastCall =>
    cases containsSub ("free_".toList) lastCall <;> rfl

/-- Witness for C6 on a concrete failing text whose last CALL occurrence
is a call into a deallocation routine. -/
theorem c6_witness :
    searchTimeoutRule c6text = false ∧ searchVerifiedRule c6text = false ∧
    searchFailRule c6text = true ∧
    containsSub derefMarker c6text = false ∧ containsSub freeMarker c6text = false ∧
    containsSub memtrackMarker c6text = false ∧ containsSub overflowMarker c6text = false ∧
    verification_result c6text = (if lastCallIsFree c6text then "invalid-free" else "error") :=
  ⟨by decide, by decide, by decide, by decide, by decide, by decide, by decide,
    c6_last_call_free c6text (by decide) (by decide) (by decide) (by decide) (by decide)
      (by decide) (by decide)⟩

/-- C7 counterexample: the valid-deref marker alone, with no failure
marker, makes verification_result return unknown, not invalid-deref: the
sub-classification only runs when the failure rule matches and the
timeout and verified rules do not. -/
theorem c7_counterexample :
    containsSub derefMarker derefMarker = true ∧
    verification_result derefMarker = "unknown" :=
  ⟨by decide, by decide⟩

/-- C7 amended: for every raw verifier output on which the failure rule
matches and neither the timeout rule nor the verified rule matches, the
presence of the valid-deref assertion-failure marker makes
verification_result return invalid-deref, regardless of where the other
failure-category markers appear in the text. -/
theorem c7_deref_first (t : List Char)
    (h1 : searchTimeoutRule t = false) (h2 : searchVerifiedRule t = false)
    (h3 : searchFailRule t = true) (h4 : containsSub derefMarker t = true) :
    verification_result t = "invalid-deref" := by
  unfold verification_result
  rw [h1, h2, h3, h4]
  rfl

/-- Witness for the amended C7 on a failing text where the valid-free
marker appears before the valid-deref marker. -/
theorem c7_witness :
    searchTimeoutRule c7wText = false ∧ searchVerifiedRule c7wText = false ∧
    searchFailRule c7wText = true ∧ containsSub derefMarker c7wText = true ∧
    verification_result c7wText = "invalid-deref" :=
  ⟨by decide, by decide, by decide, by decide,
    c7_deref_first c7wText (by decide) (by decide) (by decide) (by decide)⟩

/-- C8: the structured report built from the raw output consisting of
one trace line whose parenthesized assumption is x = 5bv32 has exactly
one step, whose assumption field is exactly x = 5: the bit-width suffix
is stripped, while the description keeps the raw fragment. -/
theorem c8_roundtrip :
    smackdOutput c8text =
      Report.fail ⟨"a.c".toList, 1, 2, "x = 5bv32".toList⟩ 1
        [⟨0, "a.c".toList, 1, 2, "x = 5bv32".toList, "x = 5".toList⟩] := by
  decide

/-- C9 counterexample: a configured transform command that fails with
exit status one is indistinguishable, for the caller of transform_out,
from one that succeeds with the same standard output: the return value
is a plain text, the exit status and the error stream are dropped, so no
distinct reportable error surfaces. -/
theorem c9_counterexample :
    (runFailC9 ("filter".toList) ("text".toList)).exitCode = 1 ∧
    transform_out runFailC9 (some ("filter".toList)) ("text".toList) =
      transform_out runOkC9 (some ("filter".toList)) ("text".toList) :=
  ⟨rfl, rfl⟩

/-- C9 amended: the result of transform_out depends only on the standard
output of the configured command — the exit status and error stream are
silently discarded rather than surfaced — and when no command is
configured the text is returned unchanged. -/
theorem c9_stdout_only (run run2 : List Char → List Char → ProcResult)
    (cfg : Option (List Char)) (old : List Char)
    (h : ∀ c i, (run c i).stdout = (run2 c i).stdout) :
    transform_out run cfg old = transform_out run2 cfg old ∧
      transform_out run none old = old := by
  constructor
  · cases cfg with
    | none => rfl
    | some c => exact h c old
  · rfl

/-- Witness for the amended C9: the failing and the succeeding oracle of
the counterexample produce identical results. -/
theorem c9_witness :
    transform_out runFailC9 (some ("filter".toList)) ("text".toList) =
        transform_out runOkC9 (some ("filter".toList)) ("text".toList) ∧
      transform_out runFailC9 none ("text".toList) = "text".toList :=
  c9_stdout_only runFailC9 runOkC9 (some ("filter".toList)) ("text".toList)
    (fun _ _ => rfl)

/-- C10: a line matching the trace shape whose trailing parenthesized
fragment is absent contributes a step whose description and assumption
are both empty: the absent fragment is normalized to empty rather than
the literal text None, and no assumption is recorded since the
assumption pattern requires the fragment. -/
theorem c10_trace_no_frag (st : SmackdState) (line : List Char) (g : TraceGroups)
    (h1 : traceMatch line = some g) (h2 : g.frag = none) :
    (smackdLine st line).traces =
      st.traces ++ [⟨g.thread, g.file, g.line, g.col, [], []⟩] := by
  have ha : traceAssumeMatch line = none := traceAssume_of_frag_none line g h1 h2
  unfold smackdLine
  rw [h1, ha]
  dsimp only
  rw [h2]
  rfl

/-- Witness for C10 on a concrete trace line ending right after the two
spaces that follow the thread id. -/
theorem c10_witness :
    traceMatch c10line = some ⟨"a.c".toList, 1, 2, 3, none⟩ ∧
    (smackdLine initState c10line).traces =
      initState.traces ++ [⟨3, "a.c".toList, 1, 2, [], []⟩] :=
  ⟨by decide,
    c10_trace_no_frag initState c10line ⟨"a.c".toList, 1, 2, 3, none⟩ (by decide) rfl⟩
